import Mathlib

/-!
Shallow embedding of `src/sdk.ts` (BrianCoinbaseSDK) for verification.

External collaborators are modelled as parameters or symbolic values, as
the specification directs:
  * the planning service (`brianSDK.transact`) is modelled by passing its
    response (a list of transaction results) to `transact` directly;
  * `viem.decodeFunctionData` is a trusted external decoder; it is
    modelled as a function parameter `decode : Abi → String → Decoded`
    (for the ABIs used here the decoder yields a function name and an
    argument list; a zero-argument function yields the empty list, which
    also models the source's `args ?? []` / non-null-asserted uses);
  * the custody service (`invokeContract`, `createTransfer`, `.wait()`)
    is modelled by recording the call that was issued; in the source each
    `await tx.wait()` resolves to the invocation object itself, which is
    then pushed onto `txHashes`, so a confirmed receipt is identified
    with the issued call.
Machine values: step `value` fields are modelled as `Nat` (the source
converts them with `BigInt(...)` / `Number(...)`); the native-transfer
amount is kept in wei (the source formats it as ETH, an external
unit-conversion by the trusted library).
-/

/-- JavaScript truthiness for an optional string: `undefined` and the
empty string are falsy, every other string is truthy. -/
def truthy : Option String → Bool
  | none => false
  | some s => s != ""

/-- Constructor options of `BrianCoinbaseSDK` (src/sdk.ts lines 23-34).
The pass-through `coinbaseOptions` bag is not validated by the
constructor and plays no role in any claim, so it is omitted. -/
structure BrianCoinbaseSDKOptions where
  brianApiKey : String
  brianApiUrl : Option String
  coinbaseApiKeyName : Option String
  coinbaseApiKeySecret : Option String
  coinbaseFilePath : Option String
deriving DecidableEq, Repr

/-- Which custody-service configuration path the constructor takes. -/
inductive CoinbaseConfig
  | apiKey (name secret : String)
  | fromJson (filePath : String)
deriving DecidableEq, Repr

/-- The constructor of `BrianCoinbaseSDK` (src/sdk.ts lines 42-71):
validation of the planning-service key, validation of the
custody-service credentials (the exact boolean composition of the
source, line 53), then the choice between `Coinbase.configure` and
`Coinbase.configureFromJson`. -/
def constructorSDK (o : BrianCoinbaseSDKOptions) : Except String CoinbaseConfig :=
  if o.brianApiKey = "" then
    Except.error "Brian API key is required"
  else if (!truthy o.coinbaseApiKeyName && !truthy o.coinbaseApiKeySecret)
      || !truthy o.coinbaseFilePath then
    Except.error "Coinbase API key name + secret, or file path are required"
  else if truthy o.coinbaseApiKeyName && truthy o.coinbaseApiKeySecret then
    Except.ok (CoinbaseConfig.apiKey (o.coinbaseApiKeyName.getD "")
      (o.coinbaseApiKeySecret.getD ""))
  else
    Except.ok (CoinbaseConfig.fromJson (o.coinbaseFilePath.getD ""))

/-- A custodial wallet handle, as far as the SDK observes it: its
network identifier (`getNetworkId()`) and its default address
(`getDefaultAddress()`, which may resolve to `undefined`). -/
structure Wallet where
  networkId : String
  defaultAddress : Option String
deriving DecidableEq, Repr

/-- Exported wallet data (`wallet.export()`), opaque to the SDK. -/
structure WalletData where
  wallet : Wallet
deriving DecidableEq, Repr

/-- A faucet request sent to the custody service
(`this.currentWallet.faucet()`). -/
structure FaucetRequest where
  wallet : Wallet
deriving DecidableEq, Repr

/-- The mutable state of a `BrianCoinbaseSDK` instance: the single
current-wallet slot (src/sdk.ts line 40). -/
structure SDKState where
  currentWallet : Option Wallet
deriving DecidableEq, Repr

/-- `createWallet` (src/sdk.ts lines 77-88): the custody service returns
a fresh wallet (passed in here as `w`), which is stored in the slot. -/
def createWallet (w : Wallet) (_s : SDKState) : Wallet × SDKState :=
  (w, ⟨some w⟩)

/-- `importWallet` (src/sdk.ts lines 90-93): the custody service
rehydrates a wallet from `walletData`, which is stored in the slot. -/
def importWallet (wd : WalletData) (_s : SDKState) : Wallet × SDKState :=
  (wd.wallet, ⟨some wd.wallet⟩)

/-- `exportWallet` (src/sdk.ts lines 95-100): fails when no wallet is
current; otherwise exports the current wallet. The state is returned to
make explicit that the method never writes the slot. -/
def exportWallet (s : SDKState) : Except String WalletData × SDKState :=
  match s.currentWallet with
  | none => (Except.error "No wallet created", s)
  | some w => (Except.ok ⟨w⟩, s)

/-- `getDefaultAddress` (src/sdk.ts lines 109-114): fails when no wallet
is current; otherwise returns the wallet's default address (possibly
`undefined`). -/
def getDefaultAddress (s : SDKState) : Except String (Option String) × SDKState :=
  match s.currentWallet with
  | none => (Except.error "No wallet created", s)
  | some w => (Except.ok w.defaultAddress, s)

/-- `fundWallet` (src/sdk.ts lines 116-124): fails when no wallet is
current; fails with the domain error when the network is not
`base-sepolia`; otherwise requests faucet funds from the custody
service. -/
def fundWallet (s : SDKState) : Except String FaucetRequest × SDKState :=
  match s.currentWallet with
  | none => (Except.error "No wallet created", s)
  | some w =>
    if w.networkId != "base-sepolia" then
      (Except.error "Wallet is not on Sepolia", s)
    else
      (Except.ok ⟨w⟩, s)

/-- The native-asset sentinel (src/sdk.ts line 36). -/
def NULL_ADDRESS : String := "0x0000000000000000000000000000000000000000"

/-- One raw call descriptor within a planned action, as the dispatcher
reads it: destination address `to`, raw encoded call data `data`,
native-asset `value`, and origin chain identifier `chainId`. -/
structure Step where
  toAddress : String
  data : String
  value : Nat
  chainId : Nat
deriving DecidableEq, Repr

instance : Inhabited Step := ⟨⟨"", "", 0, 0⟩⟩

/-- The `data` field of a transaction result: its step list (the source
reads it through the non-null assertion `data.steps!`, so it is taken as
given here) and the optional source-token address
(`data.fromToken?.address`). -/
structure TxData where
  steps : List Step
  fromTokenAddress : Option String
deriving DecidableEq, Repr

/-- One planned action returned by the planning service: action kind,
solver name, and payload. -/
structure TransactionResult where
  action : String
  solver : String
  data : TxData
deriving DecidableEq, Repr

/-- The ABIs imported from `./utils` (src/sdk.ts lines 13-21) plus the
standard `erc20Abi` from viem. -/
inductive Abi
  | erc20
  | ensoRouter
  | bungeeRouter
  | lifiRouter
  | lido
  | aaveV3L1Pool
  | aaveV3L2Pool
  | ensRegistrarController
deriving DecidableEq, Repr

/-- One decoded ABI argument value: the dispatcher only distinguishes
bigints (which the swap branch stringifies) from everything else. -/
inductive AbiArg
  | bigint (n : Int)
  | str (s : String)
deriving DecidableEq, Repr

/-- The result of `decodeFunctionData`: a function name and the decoded
argument values. -/
structure Decoded where
  functionName : String
  args : List AbiArg
deriving DecidableEq, Repr

/-- The swap branch's bigint stringification (src/sdk.ts lines 210-212):
`typeof arg === "bigint" ? arg.toString() : arg`. -/
def stringifyArg : AbiArg → AbiArg
  | AbiArg.bigint n => AbiArg.str (toString n)
  | AbiArg.str s => AbiArg.str s

/-- One call issued to the custody service: either a native-asset
transfer (`createTransfer`, transfer branch only) or a contract
invocation (`invokeContract`; `amount = none` when no `amount` option is
passed). `await tx.wait()` resolves to this same object, so the entries
of `txHashes` are values of this type. -/
inductive Call
  | nativeTransfer (destination : String) (amountWei : Nat)
  | contractInvocation (contractAddress : String) (method : String)
      (abi : Abi) (args : List AbiArg) (amount : Option Nat)
deriving DecidableEq, Repr

/-- The ABI a contract invocation was issued against (`none` for a
native transfer). -/
def callAbi : Call → Option Abi
  | Call.nativeTransfer _ _ => none
  | Call.contractInvocation _ _ abi _ _ => some abi

/-- Solver-keyed ABI selection of the swap branch (src/sdk.ts lines
200-205). -/
def swapSolverAbi (solver : String) : Abi :=
  if solver = "Enso" then Abi.ensoRouter
  else if solver = "Bungee" then Abi.bungeeRouter
  else Abi.lifiRouter

/-- Solver-keyed ABI selection of the bridge branch (src/sdk.ts lines
262-267, repeated verbatim at lines 275-280). -/
def bridgeSolverAbi (solver : String) : Abi :=
  if solver = "Enso" then Abi.ensoRouter
  else if solver = "Bungee" then Abi.bungeeRouter
  else Abi.lifiRouter

/-- Solver-keyed ABI selection of the deposit branch (src/sdk.ts line
312, repeated at line 320). -/
def depositSolverAbi (solver : String) : Abi :=
  if solver = "Enso" then Abi.ensoRouter else Abi.lido

/-- Chain-keyed ABI selection of the borrow and repay branches
(src/sdk.ts lines 388-391 and 432-435): the L1 pool ABI exactly when
the last step's `chainId` is `1`. -/
def aavePoolAbi (lastStep : Step) : Abi :=
  if lastStep.chainId = 1 then Abi.aaveV3L1Pool else Abi.aaveV3L2Pool

/-- The calls issued for one transaction result, paired with the error
that aborted its processing, if any (src/sdk.ts lines 141-509: the body
of the `for` loop of `transact`). The source tests the action string
with a sequence of independent `if` statements over pairwise-distinct
literals, so at most one branch runs; this is rendered as an `else if`
chain. `data.steps![i]` on an index past the end of the list is a
runtime `TypeError` (reading `.data` of `undefined`), rendered as the
error component. `decode` is the trusted external
`viem.decodeFunctionData`. -/
def processResult (decode : Abi → String → Decoded) (tr : TransactionResult) :
    List Call × Option String :=
  let data := tr.data
  let solver := tr.solver
  if tr.action = "transfer" then
    -- const txStep = data.steps![0]; if (!txStep) continue;
    match data.steps[0]? with
    | none => ([], none)
    | some txStep =>
      if data.fromTokenAddress = some NULL_ADDRESS then
        -- createTransfer for ETH: destination, amount from the step value
        ([Call.nativeTransfer txStep.toAddress txStep.value], none)
      else
        -- decode against erc20Abi, invoke with the literal method "transfer"
        let d := decode Abi.erc20 txStep.data
        ([Call.contractInvocation txStep.toAddress "transfer" Abi.erc20 d.args none], none)
  else if tr.action = "swap" then
    if data.steps.length = 0 then ([], none)
    else
      -- approveNeeded = data.steps!.length > 1
      let approveCalls :=
        if 1 < data.steps.length then
          let d := decode Abi.erc20 data.steps.headI.data
          [Call.contractInvocation data.steps.headI.toAddress d.functionName Abi.erc20 d.args none]
        else []
      let solverAbi := swapSolverAbi solver
      let lastStep := data.steps.getLastI
      let d := decode solverAbi lastStep.data
      let stringifiedArgs := d.args.map stringifyArg
      (approveCalls ++
        [Call.contractInvocation lastStep.toAddress d.functionName solverAbi
          stringifiedArgs (some lastStep.value)], none)
  else if tr.action = "bridge" then
    if data.steps.length = 0 then ([], none)
    else
      let approveCalls :=
        if 1 < data.steps.length then
          let d := decode Abi.erc20 data.steps.headI.data
          [Call.contractInvocation data.steps.headI.toAddress d.functionName Abi.erc20 d.args none]
        else []
      let lastStep := data.steps.getLastI
      let d := decode (bridgeSolverAbi solver) lastStep.data
      (approveCalls ++
        [Call.contractInvocation lastStep.toAddress d.functionName (bridgeSolverAbi solver)
          d.args (some lastStep.value)], none)
  else if tr.action = "deposit" then
    if data.steps.length = 0 then ([], none)
    else
      let approveCalls :=
        if 1 < data.steps.length then
          let d := decode Abi.erc20 data.steps.headI.data
          [Call.contractInvocation data.steps.headI.toAddress d.functionName Abi.erc20 d.args none]
        else []
      let lastStep := data.steps.getLastI
      let d := decode (depositSolverAbi solver) lastStep.data
      (approveCalls ++
        [Call.contractInvocation lastStep.toAddress d.functionName (depositSolverAbi solver)
          d.args (some lastStep.value)], none)
  else if tr.action = "withdraw" then
    if data.steps.length = 0 then ([], none)
    else
      let approveCalls :=
        if 1 < data.steps.length then
          let d := decode Abi.erc20 data.steps.headI.data
          [Call.contractInvocation data.steps.headI.toAddress d.functionName Abi.erc20 d.args none]
        else []
      let lastStep := data.steps.getLastI
      let d := decode Abi.ensoRouter lastStep.data
      (approveCalls ++
        [Call.contractInvocation lastStep.toAddress d.functionName Abi.ensoRouter
          d.args (some lastStep.value)], none)
  else if tr.action = "borrow" then
    if data.steps.length = 0 then ([], none)
    else
      let approveCalls :=
        if 1 < data.steps.length then
          let d := decode Abi.erc20 data.steps.headI.data
          [Call.contractInvocation data.steps.headI.toAddress d.functionName Abi.erc20 d.args none]
        else []
      let lastStep := data.steps.getLastI
      let d := decode (aavePoolAbi lastStep) lastStep.data
      (approveCalls ++
        [Call.contractInvocation lastStep.toAddress d.functionName (aavePoolAbi lastStep)
          d.args (some lastStep.value)], none)
  else if tr.action = "repay" then
    if data.steps.length = 0 then ([], none)
    else
      let approveCalls :=
        if 1 < data.steps.length then
          let d := decode Abi.erc20 data.steps.headI.data
          [Call.contractInvocation data.steps.headI.toAddress d.functionName Abi.erc20 d.args none]
        else []
      let lastStep := data.steps.getLastI
      let d := decode (aavePoolAbi lastStep) lastStep.data
      (approveCalls ++
        [Call.contractInvocation lastStep.toAddress d.functionName (aavePoolAbi lastStep)
          d.args (some lastStep.value)], none)
  else if tr.action = "ensregistration" then
    if data.steps.length = 0 then ([], none)
    else
      -- commitment from step 0
      let s0 := data.steps.headI
      let d0 := decode Abi.ensRegistrarController s0.data
      let c0 := Call.contractInvocation s0.toAddress d0.functionName
        Abi.ensRegistrarController d0.args (some s0.value)
      -- registration from step 1: `data.steps![1].data` is unguarded,
      -- so a one-element list raises a TypeError after the commitment
      -- call was already awaited and recorded
      match data.steps[1]? with
      | none => ([c0], some "TypeError: data.steps[1] is undefined")
      | some s1 =>
        let d1 := decode Abi.ensRegistrarController s1.data
        ([c0, Call.contractInvocation s1.toAddress d1.functionName
          Abi.ensRegistrarController d1.args (some s1.value)], none)
  else if tr.action = "ensrenewal" then
    if data.steps.length = 0 then ([], none)
    else
      let s0 := data.steps.headI
      let d0 := decode Abi.ensRegistrarController s0.data
      ([Call.contractInvocation s0.toAddress d0.functionName
        Abi.ensRegistrarController d0.args (some s0.value)], none)
  else
    ([], none)

/-- The loop of `transact` over the planning-service response
(src/sdk.ts lines 141-510): the calls issued in order, and the first
error, if one aborts the loop. Calls issued before the aborting error
remain in the first component — they were already confirmed on-chain. -/
def transactSteps (decode : Abi → String → Decoded) :
    List TransactionResult → List Call × Option String
  | [] => ([], none)
  | tr :: rest =>
    let r := processResult decode tr
    match r.2 with
    | some e => (r.1, some e)
    | none =>
      let rs := transactSteps decode rest
      (r.1 ++ rs.1, rs.2)

/-- All calls issued to the custody service during the loop, whether or
not `transact` ultimately rejects. -/
def issuedCalls (decode : Abi → String → Decoded)
    (plan : List TransactionResult) : List Call :=
  (transactSteps decode plan).1

/-- `transact` (src/sdk.ts lines 126-512): the wallet and address
preconditions, then the dispatch loop. The planning service's response
to the prompt is passed in as `plan`. On success the returned value is
`txHashes`, the list of confirmed calls in issuance order; when the loop
aborts, the whole invocation rejects and the caller receives no list. -/
def transact (decode : Abi → String → Decoded)
    (plan : List TransactionResult) (s : SDKState) :
    Except String (List Call) × SDKState :=
  match s.currentWallet with
  | none => (Except.error "No wallet created", s)
  | some w =>
    match w.defaultAddress with
    | none => (Except.error "No wallet address found", s)
    | some _ =>
      let r := transactSteps decode plan
      match r.2 with
      | some e => (Except.error e, s)
      | none => (Except.ok r.1, s)

/-- The ERC-20 approval call the six router-style branches issue from
step 0 when more than one step is present: decoded against `erc20Abi`,
invoked with the decoded function name and arguments and no `amount`. -/
def erc20ApproveCall (decode : Abi → String → Decoded) (st : Step) : Call :=
  Call.contractInvocation st.toAddress (decode Abi.erc20 st.data).functionName
    Abi.erc20 (decode Abi.erc20 st.data).args none

/-- The ABI each router-style branch decodes its operative (last) step
against: solver-keyed for swap/bridge/deposit, fixed for withdraw,
chain-keyed for borrow/repay. -/
def operativeAbi (action solver : String) (lastStep : Step) : Abi :=
  if action = "swap" then swapSolverAbi solver
  else if action = "bridge" then bridgeSolverAbi solver
  else if action = "deposit" then depositSolverAbi solver
  else if action = "withdraw" then Abi.ensoRouter
  else aavePoolAbi lastStep

/-- The operative contract call of a router-style branch: the last
step, decoded against `operativeAbi`, invoked at the step destination
with the step value attached; the swap branch stringifies bigint
arguments before invoking. -/
def operativeCall (decode : Abi → String → Decoded)
    (action solver : String) (lastStep : Step) : Call :=
  let abi := operativeAbi action solver lastStep
  let d := decode abi lastStep.data
  Call.contractInvocation lastStep.toAddress d.functionName abi
    (if action = "swap" then d.args.map stringifyArg else d.args)
    (some lastStep.value)

/-- An ENS registrar-controller call built from one step: decoded
against the fixed registrar ABI, invoked at the step destination with
the step value attached. -/
def ensCall (decode : Abi → String → Decoded) (st : Step) : Call :=
  Call.contractInvocation st.toAddress
    (decode Abi.ensRegistrarController st.data).functionName
    Abi.ensRegistrarController
    (decode Abi.ensRegistrarController st.data).args
    (some st.value)

/-- The nine action kinds the dispatch if-chain recognises. -/
def knownActions : List String :=
  ["transfer", "swap", "bridge", "deposit", "withdraw", "borrow", "repay",
   "ensregistration", "ensrenewal"]

/-- A concrete decoder standing in for `viem.decodeFunctionData` in
closed-instance theorems: it returns a function name and echoes the raw
call data, with one bigint argument so that the swap branch's
stringification is observable. -/
def sampleDecode : Abi → String → Decoded :=
  fun _abi d => ⟨"fn", [AbiArg.bigint 42, AbiArg.str d]⟩

/-- A concrete step used in closed-instance theorems. -/
def stepA : Step := ⟨"0xaaa1", "0xdata1", 5, 8453⟩

/-- A second concrete step used in closed-instance theorems. -/
def stepB : Step := ⟨"0xbbb2", "0xdata2", 7, 1⟩

/-- A concrete SDK state holding a wallet with a resolvable default
address, used in closed-instance theorems. -/
def sWallet : SDKState := ⟨some ⟨"base-mainnet", some "0xme"⟩⟩

/-- If a transaction result carries an empty step list, its processing
issues no call and raises no error, whatever its action kind. -/
theorem processResult_empty_steps (decode : Abi → String → Decoded)
    (tr : TransactionResult) (h : tr.data.steps = []) :
    processResult decode tr = ([], none) := by
  simp [processResult, h]

/-- A result whose processing issues no call and raises no error leaves
the rest of the loop unchanged. -/
theorem transactSteps_skip (decode : Abi → String → Decoded)
    (tr : TransactionResult) (rest : List TransactionResult)
    (h : processResult decode tr = ([], none)) :
    transactSteps decode (tr :: rest) = transactSteps decode rest := by
  simp [transactSteps, h]

/-- C1 (code bug): the source's credential check (src/sdk.ts line 53)
reads `(!coinbaseApiKeyName && !coinbaseApiKeySecret) || !coinbaseFilePath`,
so the constructor rejects a configuration that supplies a complete
key name + key secret pair without a credentials file path — although
its own error message, the README, and the subsequent
`Coinbase.configure` branch all treat the key pair as a sufficient
credential form on its own. This theorem evaluates the constructor at
that failing input. -/
theorem C1_keypair_without_filepath_rejected :
    constructorSDK ⟨"brian-key", none, some "key-name", some "key-secret", none⟩
      = Except.error "Coinbase API key name + secret, or file path are required" := by
  rfl

/-- C8: every wallet-dependent operation — `exportWallet`,
`getDefaultAddress`, `fundWallet`, and `transact` — fails with the
usage error when the current-wallet slot is `null`, and leaves the slot
unchanged (still `null`). -/
theorem C8_no_wallet_usage_error (decode : Abi → String → Decoded)
    (plan : List TransactionResult) (s : SDKState)
    (h : s.currentWallet = none) :
    exportWallet s = (Except.error "No wallet created", s) ∧
    getDefaultAddress s = (Except.error "No wallet created", s) ∧
    fundWallet s = (Except.error "No wallet created", s) ∧
    transact decode plan s = (Except.error "No wallet created", s) := by
  refine ⟨?_, ?_, ?_, ?_⟩ <;>
    simp [exportWallet, getDefaultAddress, fundWallet, transact, h]

/-- C8 witness: the four operations at the empty state. -/
theorem C8_no_wallet_usage_error_witness :
    exportWallet ⟨none⟩ = (Except.error "No wallet created", ⟨none⟩) ∧
    getDefaultAddress ⟨none⟩ = (Except.error "No wallet created", ⟨none⟩) ∧
    fundWallet ⟨none⟩ = (Except.error "No wallet created", ⟨none⟩) ∧
    transact sampleDecode [] ⟨none⟩ = (Except.error "No wallet created", ⟨none⟩) :=
  C8_no_wallet_usage_error sampleDecode [] ⟨none⟩ rfl

/-- C9: with a current wallet present, `fundWallet` reaches the faucet
request exactly when the wallet's network identifier is `base-sepolia`;
for every other network identifier it fails with the documented domain
error, without contacting the custody service. -/
theorem C9_fund_only_on_base_sepolia (s : SDKState) (w : Wallet)
    (h : s.currentWallet = some w) :
    (w.networkId = "base-sepolia" →
      fundWallet s = (Except.ok ⟨w⟩, s)) ∧
    (w.networkId ≠ "base-sepolia" →
      fundWallet s = (Except.error "Wallet is not on Sepolia", s)) := by
  constructor <;> intro hn <;> simp [fundWallet, h, hn]

/-- C9 witness: a `base-sepolia` wallet is funded; discharges the
theorem's hypotheses at a concrete state. -/
theorem C9_fund_only_on_base_sepolia_witness :
    fundWallet ⟨some ⟨"base-sepolia", some "0xabc"⟩⟩
      = (Except.ok ⟨⟨"base-sepolia", some "0xabc"⟩⟩,
         ⟨some ⟨"base-sepolia", some "0xabc"⟩⟩) :=
  (C9_fund_only_on_base_sepolia ⟨some ⟨"base-sepolia", some "0xabc"⟩⟩
    ⟨"base-sepolia", some "0xabc"⟩ rfl).1 rfl

/-- C4: for a transfer transaction result with a non-empty step list,
when the source asset's address is the null-address sentinel exactly
one native-asset transfer is issued, with step 0's destination and
value; for any other source asset exactly one contract call is issued,
with arguments decoded from step 0's call data against the standard
ERC-20 interface (and the literal method name `transfer`). -/
theorem C4_transfer_branch (decode : Abi → String → Decoded)
    (tr : TransactionResult) (s0 : Step)
    (hact : tr.action = "transfer") (h0 : tr.data.steps[0]? = some s0) :
    (tr.data.fromTokenAddress = some NULL_ADDRESS →
      processResult decode tr
        = ([Call.nativeTransfer s0.toAddress s0.value], none)) ∧
    (tr.data.fromTokenAddress ≠ some NULL_ADDRESS →
      processResult decode tr
        = ([Call.contractInvocation s0.toAddress "transfer" Abi.erc20
            (decode Abi.erc20 s0.data).args none], none)) := by
  constructor <;> intro hf <;> simp [processResult, hact, h0, hf]

/-- A concrete transfer result whose source asset is the sentinel. -/
def trTransferNative : TransactionResult :=
  ⟨"transfer", "Enso", ⟨[stepA], some NULL_ADDRESS⟩⟩

/-- C4 witness: the transfer branch at a concrete native-asset result,
discharging the theorem's hypotheses there. -/
theorem C4_transfer_branch_witness :
    (trTransferNative.action = "transfer" ∧
     trTransferNative.data.steps[0]? = some stepA) ∧
    ((trTransferNative.data.fromTokenAddress = some NULL_ADDRESS →
      processResult sampleDecode trTransferNative
        = ([Call.nativeTransfer stepA.toAddress stepA.value], none)) ∧
     (trTransferNative.data.fromTokenAddress ≠ some NULL_ADDRESS →
      processResult sampleDecode trTransferNative
        = ([Call.contractInvocation stepA.toAddress "transfer" Abi.erc20
            (sampleDecode Abi.erc20 stepA.data).args none], none))) :=
  ⟨⟨rfl, rfl⟩, C4_transfer_branch sampleDecode trTransferNative stepA rfl rfl⟩

/-- C7: a transaction result whose action kind is none of the nine
recognised kinds issues no call, raises no error, and leaves the rest
of the loop unchanged. -/
theorem C7_unknown_action_skipped (decode : Abi → String → Decoded)
    (tr : TransactionResult) (rest : List TransactionResult)
    (h : tr.action ∉ knownActions) :
    processResult decode tr = ([], none) ∧
    transactSteps decode (tr :: rest) = transactSteps decode rest := by
  simp [knownActions] at h
  obtain ⟨h1, h2, h3, h4, h5, h6, h7, h8, h9⟩ := h
  have hp : processResult decode tr = ([], none) := by
    simp [processResult, h1, h2, h3, h4, h5, h6, h7, h8, h9]
  exact ⟨hp, transactSteps_skip decode tr rest hp⟩

/-- A concrete result with an unrecognised action kind. -/
def trStake : TransactionResult := ⟨"stake", "Enso", ⟨[stepA], none⟩⟩

/-- C7 witness: the unrecognised action `stake` at a concrete input,
discharging the theorem's hypothesis there. -/
theorem C7_unknown_action_skipped_witness :
    trStake.action ∉ knownActions ∧
    (processResult sampleDecode trStake = ([], none) ∧
     transactSteps sampleDecode [trStake, trStake]
       = transactSteps sampleDecode [trStake]) :=
  ⟨by decide, C7_unknown_action_skipped sampleDecode trStake [trStake] (by decide)⟩

/-- C3: for each of the six router-style action kinds with a non-empty
step list, processing raises no error and issues the conditional
ERC-20 approval (from step 0, exactly when more than one step is
present) followed by the single operative call built from the last
step; with exactly one step no approval is issued. -/
theorem C3_single_approval_convention (decode : Abi → String → Decoded)
    (tr : TransactionResult)
    (hact : tr.action ∈ ["swap", "bridge", "deposit", "withdraw", "borrow", "repay"])
    (hne : tr.data.steps ≠ []) :
    processResult decode tr =
      ((if 1 < tr.data.steps.length then
          [erc20ApproveCall decode tr.data.steps.headI]
        else [])
        ++ [operativeCall decode tr.action tr.solver tr.data.steps.getLastI],
       none) := by
  have hlen : tr.data.steps.length ≠ 0 := by
    simpa [List.length_eq_zero] using hne
  simp only [List.mem_cons, List.not_mem_nil, or_false] at hact
  rcases hact with h | h | h | h | h | h <;>
    simp [processResult, h, hlen, erc20ApproveCall, operativeCall, operativeAbi]

/-- A concrete two-step swap result routed through the Bungee solver. -/
def trSwapTwoSteps : TransactionResult := ⟨"swap", "Bungee", ⟨[stepA, stepB], none⟩⟩

/-- C3 witness: the swap branch at a concrete two-step result,
discharging the theorem's hypotheses there. -/
theorem C3_single_approval_convention_witness :
    (trSwapTwoSteps.action
        ∈ ["swap", "bridge", "deposit", "withdraw", "borrow", "repay"] ∧
     trSwapTwoSteps.data.steps ≠ []) ∧
    processResult sampleDecode trSwapTwoSteps =
      ((if 1 < trSwapTwoSteps.data.steps.length then
          [erc20ApproveCall sampleDecode trSwapTwoSteps.data.steps.headI]
        else [])
        ++ [operativeCall sampleDecode trSwapTwoSteps.action trSwapTwoSteps.solver
            trSwapTwoSteps.data.steps.getLastI],
       none) :=
  ⟨⟨by decide, by decide⟩,
   C3_single_approval_convention sampleDecode trSwapTwoSteps (by decide) (by decide)⟩

/-- A concrete ENS-registration result with a single step. -/
def trEnsRegOneStep : TransactionResult := ⟨"ensregistration", "", ⟨[stepA], none⟩⟩

/-- C5 counterexample: an ENS-registration result with a non-empty step
list on which the claim fails — the step list has one element, only the
commitment call is issued, and processing aborts with an error instead
of issuing two contract calls. -/
theorem C5_one_step_registration_not_two_calls :
    processResult sampleDecode trEnsRegOneStep
      = ([ensCall sampleDecode stepA],
         some "TypeError: data.steps[1] is undefined") ∧
    (processResult sampleDecode trEnsRegOneStep).1.length ≠ 2 := by
  constructor
  · rfl
  · decide

/-- C5 (amended): for every ENS-registration transaction result whose
step list has at least two elements (step 1 present), exactly two
contract calls are issued against the fixed registrar ABI — the
commitment decoded from step 0, then the registration decoded from
step 1 — regardless of solver; for every ENS-renewal result with a
non-empty step list, exactly one contract call is issued, decoded from
step 0 against the same registrar ABI. -/
theorem C5_ens_registration_and_renewal (decode : Abi → String → Decoded)
    (tr trRenewal : TransactionResult) (s1 : Step)
    (hreg : tr.action = "ensregistration")
    (h1 : tr.data.steps[1]? = some s1)
    (hren : trRenewal.action = "ensrenewal")
    (hne : trRenewal.data.steps ≠ []) :
    processResult decode tr
      = ([ensCall decode tr.data.steps.headI, ensCall decode s1], none) ∧
    processResult decode trRenewal
      = ([ensCall decode trRenewal.data.steps.headI], none) := by
  have hlen : tr.data.steps.length ≠ 0 := by
    obtain ⟨hlt, -⟩ := List.getElem?_eq_some.mp h1
    omega
  have hlen' : trRenewal.data.steps.length ≠ 0 := by
    simpa [List.length_eq_zero] using hne
  constructor
  · simp [processResult, hreg, hlen, h1, ensCall]
  · simp [processResult, hren, hlen', ensCall]

/-- A concrete two-step ENS-registration result. -/
def trEnsRegTwoSteps : TransactionResult :=
  ⟨"ensregistration", "", ⟨[stepA, stepB], none⟩⟩

/-- A concrete one-step ENS-renewal result. -/
def trEnsRenewal : TransactionResult := ⟨"ensrenewal", "", ⟨[stepB], none⟩⟩

/-- C5 witness: the amended theorem at a concrete two-step registration
and a concrete one-step renewal, discharging its hypotheses there. -/
theorem C5_ens_registration_and_renewal_witness :
    (trEnsRegTwoSteps.action = "ensregistration" ∧
     trEnsRegTwoSteps.data.steps[1]? = some stepB ∧
     trEnsRenewal.action = "ensrenewal" ∧
     trEnsRenewal.data.steps ≠ []) ∧
    (processResult sampleDecode trEnsRegTwoSteps
       = ([ensCall sampleDecode trEnsRegTwoSteps.data.steps.headI,
           ensCall sampleDecode stepB], none) ∧
     processResult sampleDecode trEnsRenewal
       = ([ensCall sampleDecode trEnsRenewal.data.steps.headI], none)) :=
  ⟨⟨rfl, rfl, rfl, by decide⟩,
   C5_ens_registration_and_renewal sampleDecode trEnsRegTwoSteps trEnsRenewal
     stepB rfl rfl rfl (by decide)⟩

/-- A concrete one-step swap result routed through the Bungee solver. -/
def trSwapBungee : TransactionResult := ⟨"swap", "Bungee", ⟨[stepA], none⟩⟩

/-- A concrete one-step deposit result routed through the Bungee
solver. -/
def trDepositBungee : TransactionResult := ⟨"deposit", "Bungee", ⟨[stepA], none⟩⟩

/-- C2 counterexample: the solver name `Bungee` selects the Bungee
router ABI when dispatching a swap but the Lido ABI when dispatching a
deposit, so ABI selection is not the same function of the solver name
across all of swap/bridge/deposit. -/
theorem C2_bungee_differs_across_actions :
    (processResult sampleDecode trSwapBungee).1.map callAbi
      = [some Abi.bungeeRouter] ∧
    (processResult sampleDecode trDepositBungee).1.map callAbi
      = [some Abi.lido] ∧
    (processResult sampleDecode trSwapBungee).1.map callAbi
      ≠ (processResult sampleDecode trDepositBungee).1.map callAbi := by
  refine ⟨rfl, rfl, by decide⟩

/-- C2 (amended): within each solver-keyed action the selected ABI is a
pure function of the solver name string — the operative call's ABI is
`swapSolverAbi`/`bridgeSolverAbi`/`depositSolverAbi` applied to the
solver name, for every decoder and step; the swap and bridge branches
share the same selection function, while the deposit branch uses its
own two-ABI map, which differs from the swap/bridge one for non-Enso
solvers. -/
theorem C2_solver_abi_selection (solver : String)
    (decode : Abi → String → Decoded) (st : Step) :
    swapSolverAbi solver = bridgeSolverAbi solver ∧
    (processResult decode ⟨"swap", solver, ⟨[st], none⟩⟩).1.map callAbi
      = [some (swapSolverAbi solver)] ∧
    (processResult decode ⟨"bridge", solver, ⟨[st], none⟩⟩).1.map callAbi
      = [some (bridgeSolverAbi solver)] ∧
    (processResult decode ⟨"deposit", solver, ⟨[st], none⟩⟩).1.map callAbi
      = [some (depositSolverAbi solver)] := by
  refine ⟨rfl, ?_, ?_, ?_⟩ <;> simp [processResult, callAbi, List.getLastI]

/-- C6: when `transact` succeeds, the returned receipt list is exactly
the list of calls issued across all transaction results, in issuance
order (hence of equal length); a result with an empty step list
contributes zero receipts and leaves the processing of the remaining
results unchanged. -/
theorem C6_receipts_are_issued_calls (decode : Abi → String → Decoded)
    (plan : List TransactionResult) (s : SDKState) (l : List Call)
    (tr : TransactionResult) (rest : List TransactionResult)
    (hok : (transact decode plan s).1 = Except.ok l)
    (hempty : tr.data.steps = []) :
    l = issuedCalls decode plan ∧
    l.length = (issuedCalls decode plan).length ∧
    transactSteps decode (tr :: rest) = transactSteps decode rest := by
  have hl : l = issuedCalls decode plan := by
    cases hcw : s.currentWallet with
    | none => simp [transact, hcw] at hok
    | some w =>
      cases haddr : w.defaultAddress with
      | none => simp [transact, hcw, haddr] at hok
      | some a =>
        cases herr : (transactSteps decode plan).2 with
        | some e => simp [transact, hcw, haddr, herr] at hok
        | none =>
          simp only [transact, hcw, haddr, herr] at hok
          simpa [issuedCalls] using hok.symm
  exact ⟨hl, by rw [hl],
    transactSteps_skip decode tr rest (processResult_empty_steps decode tr hempty)⟩

/-- A concrete swap result with an empty step list. -/
def trSwapEmpty : TransactionResult := ⟨"swap", "Enso", ⟨[], none⟩⟩

/-- C6 witness: a successful `transact` over a plan containing an
unrecognised action, and an empty-step result, discharging the
theorem's hypotheses at concrete inputs. -/
theorem C6_receipts_are_issued_calls_witness :
    ((transact sampleDecode [trStake] sWallet).1 = Except.ok [] ∧
     trSwapEmpty.data.steps = []) ∧
    ([] = issuedCalls sampleDecode [trStake] ∧
     List.length ([] : List Call)
       = (issuedCalls sampleDecode [trStake]).length ∧
     transactSteps sampleDecode [trSwapEmpty, trStake]
       = transactSteps sampleDecode [trStake]) :=
  ⟨⟨rfl, rfl⟩,
   C6_receipts_are_issued_calls sampleDecode [trStake] sWallet []
     trSwapEmpty [trStake] rfl rfl⟩

/-- C10: an ENS-registration result with exactly one step makes
`transact` issue (and await) the commitment call built from step 0, and
then abort on the unguarded access to the absent step 1; the issued
calls of the loop are exactly the commitment call, yet the `transact`
invocation rejects, so the caller receives no receipt list even though
the commitment call was confirmed. -/
theorem C10_one_step_registration_rejects_after_commitment
    (decode : Abi → String → Decoded) (s : SDKState) (w : Wallet)
    (tr : TransactionResult)
    (hw : s.currentWallet = some w) (ha : w.defaultAddress.isSome)
    (hact : tr.action = "ensregistration")
    (hlen : tr.data.steps.length = 1) :
    issuedCalls decode [tr] = [ensCall decode tr.data.steps.headI] ∧
    (processResult decode tr).2.isSome ∧
    ∃ e, transact decode [tr] s = (Except.error e, s) := by
  obtain ⟨s0, hs⟩ := List.length_eq_one.mp hlen
  have hp : processResult decode tr
      = ([ensCall decode tr.data.steps.headI],
         some "TypeError: data.steps[1] is undefined") := by
    simp [processResult, hact, hs, ensCall]
  have hts : transactSteps decode [tr]
      = ([ensCall decode tr.data.steps.headI],
         some "TypeError: data.steps[1] is undefined") := by
    simp [transactSteps, hp]
  obtain ⟨a, ha2⟩ := Option.isSome_iff_exists.mp ha
  refine ⟨by simp [issuedCalls, hts], by simp [hp],
    ⟨"TypeError: data.steps[1] is undefined", ?_⟩⟩
  simp [transact, hw, ha2, hts]

/-- C10 witness: a concrete one-step ENS-registration plan against a
concrete wallet state, discharging the theorem's hypotheses there. -/
theorem C10_one_step_registration_rejects_after_commitment_witness :
    (sWallet.currentWallet = some ⟨"base-mainnet", some "0xme"⟩ ∧
     (Wallet.mk "base-mainnet" (some "0xme")).defaultAddress.isSome ∧
     trEnsRegOneStep.action = "ensregistration" ∧
     trEnsRegOneStep.data.steps.length = 1) ∧
    (issuedCalls sampleDecode [trEnsRegOneStep]
       = [ensCall sampleDecode trEnsRegOneStep.data.steps.headI] ∧
     (processResult sampleDecode trEnsRegOneStep).2.isSome ∧
     ∃ e, transact sampleDecode [trEnsRegOneStep] sWallet
       = (Except.error e, sWallet)) :=
  ⟨⟨rfl, rfl, rfl, rfl⟩,
   C10_one_step_registration_rejects_after_commitment sampleDecode sWallet
     ⟨"base-mainnet", some "0xme"⟩ trEnsRegOneStep rfl rfl rfl rfl⟩
